import Mathlib

/-!
Verification of the hospital record-keeping dashboard: a shallow embedding of
the SQLite schema, the bootstrap/seeding initializer, the form-based inserts,
the patient name search, the revenue aggregation and the canned-question
dispatcher, together with theorems settling the specified properties.
-/

/-- Row of the `departments` table of the interactive app (`app_backup.py`). -/
structure Department where
  dept_id : Nat
  dept_name : String
  location : String
deriving DecidableEq, Repr

/-- Row of the `doctors` table of the interactive app. -/
structure Doctor where
  doctor_id : Nat
  name : String
  specialization : String
  dept_id : Nat
  phone : String
  email : String
  experience : Nat
  consultation_fee : ℚ
deriving DecidableEq, Repr

/-- Row of the `patients` table of the interactive app. -/
structure Patient where
  patient_id : Nat
  name : String
  age : Nat
  gender : String
  phone : String
  email : String
  address : String
  blood_group : String
  registration_date : String
deriving DecidableEq, Repr

/-- Row of the `appointments` table of the interactive app. -/
structure Appointment where
  appointment_id : Nat
  patient_id : Nat
  doctor_id : Nat
  appointment_date : String
  appointment_time : String
  status : String
  reason : String
deriving DecidableEq, Repr

/-- State of the `hospital.db` store: contents of the four tables. -/
structure DB where
  departments : List Department
  doctors : List Doctor
  patients : List Patient
  appointments : List Appointment
deriving DecidableEq, Repr

/-- The store created by a fresh connection: all four tables empty. -/
def emptyDB : DB := ⟨[], [], [], []⟩

/-- Next AUTOINCREMENT identifier: one more than the largest id in use. -/
def nextId (ids : List Nat) : Nat := ids.foldr max 0 + 1

/-- Seed rows for `departments` inserted by `init_db` (lines 76-78). -/
def seedDeptRows (db : DB) : List Department :=
  let n := nextId (db.departments.map Department.dept_id)
  [⟨n, "Cardiology", "Building A"⟩, ⟨n + 1, "Neurology", "Building B"⟩,
   ⟨n + 2, "Orthopedics", "Building C"⟩, ⟨n + 3, "Pediatrics", "Building D"⟩,
   ⟨n + 4, "Emergency", "Building E"⟩]

/-- Seed rows for `doctors` inserted by `init_db` (lines 80-87). -/
def seedDoctorRows (db : DB) : List Doctor :=
  let n := nextId (db.doctors.map Doctor.doctor_id)
  [⟨n, "Dr. Ahmed Khan", "Cardiologist", 1, "0300-1234567", "ahmed@hospital.com", 15, 2000⟩,
   ⟨n + 1, "Dr. Sara Ali", "Neurologist", 2, "0301-2345678", "sara@hospital.com", 10, 2500⟩,
   ⟨n + 2, "Dr. Hassan Raza", "Orthopedic Surgeon", 3, "0302-3456789", "hassan@hospital.com", 12, 1800⟩,
   ⟨n + 3, "Dr. Fatima Noor", "Pediatrician", 4, "0303-4567890", "fatima@hospital.com", 8, 1500⟩,
   ⟨n + 4, "Dr. Usman Malik", "Emergency Physician", 5, "0304-5678901", "usman@hospital.com", 7, 1200⟩]

/-- Seed rows for `patients` inserted by `init_db` (lines 89-96). -/
def seedPatientRows (db : DB) : List Patient :=
  let n := nextId (db.patients.map Patient.patient_id)
  [⟨n, "Ali Hassan", 35, "Male", "0311-1111111", "ali@email.com", "Karachi", "O+", "2024-01-15"⟩,
   ⟨n + 1, "Ayesha Khan", 28, "Female", "0312-2222222", "ayesha@email.com", "Lahore", "A+", "2024-01-20"⟩,
   ⟨n + 2, "Bilal Ahmed", 42, "Male", "0313-3333333", "bilal@email.com", "Islamabad", "B+", "2024-02-10"⟩,
   ⟨n + 3, "Zainab Ali", 55, "Female", "0314-4444444", "zainab@email.com", "Karachi", "AB+", "2024-02-15"⟩,
   ⟨n + 4, "Hamza Malik", 30, "Male", "0315-5555555", "hamza@email.com", "Lahore", "O-", "2024-03-01"⟩]

/-- Seed rows for `appointments` inserted by `init_db` (lines 98-105). -/
def seedApptRows (db : DB) : List Appointment :=
  let n := nextId (db.appointments.map Appointment.appointment_id)
  [⟨n, 1, 1, "2024-03-15", "10:00 AM", "Completed", "Chest pain"⟩,
   ⟨n + 1, 2, 2, "2024-03-16", "11:00 AM", "Completed", "Headache"⟩,
   ⟨n + 2, 3, 3, "2024-03-17", "02:00 PM", "Scheduled", "Knee pain"⟩,
   ⟨n + 3, 4, 4, "2024-03-18", "09:00 AM", "Scheduled", "Child checkup"⟩,
   ⟨n + 4, 5, 5, "2024-03-19", "03:00 PM", "Cancelled", "Emergency"⟩]

/-- Initializer `init_db` after the corruption probe (lines 32-108): the
`CREATE TABLE IF NOT EXISTS` statements keep existing contents, and the seed
data is inserted only when `SELECT COUNT(*) FROM departments` returns 0. -/
def init_db (db : DB) : DB :=
  if db.departments.isEmpty then
    { departments := db.departments ++ seedDeptRows db,
      doctors := db.doctors ++ seedDoctorRows db,
      patients := db.patients ++ seedPatientRows db,
      appointments := db.appointments ++ seedApptRows db }
  else db

/-- Startup state of the storage file: either readable (the `SELECT 1` probe
succeeds and the tables hold `db`) or corrupt/unreadable (the probe raises
`sqlite3.DatabaseError` and no content is recoverable). -/
inductive Store where
  | corrupt : Store
  | good : DB → Store
deriving DecidableEq, Repr

/-- Full `init_db` including the corruption recovery of lines 20-31: a corrupt
store is deleted (`os.remove`) and recreated from an empty database, a good
store is kept and initialized in place. -/
def initStore : Store → Store
  | Store.corrupt => Store.good (init_db emptyDB)
  | Store.good db => Store.good (init_db db)

/-- Appointment row inserted by the book-appointment form (lines 347-351);
the status column is always passed the literal string given in the source. -/
def bookedRow (db : DB) (patient doctor : Nat) (date time reason : String) : Appointment :=
  ⟨nextId (db.appointments.map Appointment.appointment_id),
   patient, doctor, date, time, "Scheduled", reason⟩

/-- The book-appointment form insert (lines 347-351). -/
def book_appointment (db : DB) (patient doctor : Nat) (date time reason : String) : DB :=
  { db with appointments := db.appointments ++ [bookedRow db patient doctor date time reason] }

/-- Patient row inserted by the add-patient form (lines 256-263). -/
def newPatientRow (db : DB) (name : String) (age : Nat)
    (gender phone email address blood regDate : String) : Patient :=
  ⟨nextId (db.patients.map Patient.patient_id),
   name, age, gender, phone, email, address, blood, regDate⟩

/-- The add-patient form insert (lines 256-263); `regDate` stands for the
`datetime.now()` timestamp string. -/
def add_patient (db : DB) (name : String) (age : Nat)
    (gender phone email address blood regDate : String) : DB :=
  { db with patients := db.patients ++ [newPatientRow db name age gender phone email address blood regDate] }

/-- Row of the `departments` table created by `database_setup.py`. -/
structure Department2 where
  dept_id : Nat
  dept_name : String
  head_doctor : String
  location : String
  phone : String
deriving DecidableEq, Repr

/-- Row of the `doctors` table created by `database_setup.py`. -/
structure Doctor2 where
  doctor_id : Nat
  name : String
  specialization : String
  dept_id : Nat
  phone : String
  email : String
  experience_years : Nat
  consultation_fee : ℚ
deriving DecidableEq, Repr

/-- Row of the `patients` table created by `database_setup.py`. -/
structure Patient2 where
  patient_id : Nat
  name : String
  age : Nat
  gender : String
  phone : String
  email : String
  address : String
  emergency_contact : String
  blood_group : String
  registration_date : String
deriving DecidableEq, Repr

/-- Row of the `appointments` table created by `database_setup.py`. -/
structure Appointment2 where
  appointment_id : Nat
  patient_id : Nat
  doctor_id : Nat
  appointment_date : String
  appointment_time : String
  status : String
  reason : String
  notes : String
deriving DecidableEq, Repr

/-- Row of the `medical_records` table created by `database_setup.py`. -/
structure MedicalRecord where
  record_id : Nat
  patient_id : Nat
  doctor_id : Nat
  visit_date : String
  diagnosis : String
  prescription : String
  treatment : String
  follow_up_date : String
  cost : ℚ
deriving DecidableEq, Repr

/-- State of the `hospital_new.db` store produced by the standalone script. -/
structure DB2 where
  departments : List Department2
  doctors : List Doctor2
  patients : List Patient2
  appointments : List Appointment2
  medical_records : List MedicalRecord
deriving DecidableEq, Repr

/-- Result of `create_hospital_database` (`database_setup.py`): the script
drops all five tables and repopulates them with its fixed sample data, so the
outcome is this constant state. -/
def create_hospital_database : DB2 :=
  { departments :=
      [⟨1, "Cardiology", "Dr. Ahmed Khan", "Block A, Floor 2", "021-1234567"⟩,
       ⟨2, "Neurology", "Dr. Sarah Ali", "Block B, Floor 3", "021-2345678"⟩,
       ⟨3, "Orthopedics", "Dr. Hassan Sheikh", "Block C, Floor 1", "021-3456789"⟩,
       ⟨4, "Pediatrics", "Dr. Fatima Malik", "Block A, Floor 1", "021-4567890"⟩,
       ⟨5, "Emergency", "Dr. Omar Siddiqui", "Ground Floor", "021-5678901"⟩],
    doctors :=
      [⟨1, "Dr. Ahmed Khan", "Cardiologist", 1, "0300-1234567", "ahmed.khan@hospital.com", 15, 3000⟩,
       ⟨2, "Dr. Sarah Ali", "Neurologist", 2, "0300-2345678", "sarah.ali@hospital.com", 12, 3500⟩,
       ⟨3, "Dr. Hassan Sheikh", "Orthopedic Surgeon", 3, "0300-3456789", "hassan.sheikh@hospital.com", 18, 4000⟩,
       ⟨4, "Dr. Fatima Malik", "Pediatrician", 4, "0300-4567890", "fatima.malik@hospital.com", 10, 2500⟩,
       ⟨5, "Dr. Omar Siddiqui", "Emergency Medicine", 5, "0300-5678901", "omar.siddiqui@hospital.com", 8, 2000⟩,
       ⟨6, "Dr. Zainab Qureshi", "Cardiologist", 1, "0300-6789012", "zainab.qureshi@hospital.com", 7, 2800⟩,
       ⟨7, "Dr. Ali Raza", "Neurologist", 2, "0300-7890123", "ali.raza@hospital.com", 5, 3200⟩],
    patients :=
      [⟨1, "Muhammad Asif", 45, "Male", "0301-1111111", "asif@email.com", "Karachi, Pakistan", "0302-2222222", "B+", "2024-01-15"⟩,
       ⟨2, "Ayesha Khan", 32, "Female", "0301-3333333", "ayesha@email.com", "Lahore, Pakistan", "0302-4444444", "A+", "2024-01-20"⟩,
       ⟨3, "Bilal Ahmed", 28, "Male", "0301-5555555", "bilal@email.com", "Islamabad, Pakistan", "0302-6666666", "O+", "2024-02-01"⟩,
       ⟨4, "Sana Malik", 35, "Female", "0301-7777777", "sana@email.com", "Faisalabad, Pakistan", "0302-8888888", "AB+", "2024-02-10"⟩,
       ⟨5, "Ahmed Ali", 50, "Male", "0301-9999999", "ahmed@email.com", "Peshawar, Pakistan", "0302-0000000", "B-", "2024-02-15"⟩],
    appointments :=
      [⟨1, 1, 1, "2024-12-20", "10:00 AM", "Scheduled", "Chest pain", "Regular checkup"⟩,
       ⟨2, 2, 2, "2024-12-21", "2:00 PM", "Completed", "Headache", "MRI recommended"⟩,
       ⟨3, 3, 3, "2024-12-22", "11:00 AM", "Scheduled", "Knee pain", "X-ray required"⟩,
       ⟨4, 4, 4, "2024-12-23", "9:00 AM", "Scheduled", "Child fever", "Routine checkup"⟩,
       ⟨5, 5, 5, "2024-12-19", "8:00 PM", "Completed", "Emergency", "Accident case"⟩],
    medical_records :=
      [⟨1, 1, 1, "2024-12-15", "Hypertension", "Amlodipine 5mg daily", "Lifestyle changes recommended", "2025-01-15", 3000⟩,
       ⟨2, 2, 2, "2024-12-10", "Migraine", "Sumatriptan as needed", "Stress management", "2024-12-25", 3500⟩,
       ⟨3, 5, 5, "2024-12-19", "Fracture - Right arm", "Cast applied", "Surgery not required", "2025-01-02", 15000⟩] }

/-- Lower-casing of a string, character by character, as done by Python's
`query.lower()` and by SQLite's case folding (both fold the basic latin
letters that occur in the data and keywords of this program). -/
def lowerStr (s : String) : String := ⟨s.data.map Char.toLower⟩

/-- Substring membership on character lists: the embedding of Python's
`sub in s` test used by the dispatcher. -/
def hasSub (pat : List Char) : List Char → Bool
  | [] => pat.isEmpty
  | c :: t => pat.isPrefixOf (c :: t) || hasSub pat t

/-- Substring membership on strings. -/
def strContains (s sub : String) : Bool := hasSub sub.data s.data

/-- One step of the SQL `LIKE` matcher with explicit fuel so that the
definition is structurally recursive and evaluates in the kernel. The `%`
wildcard matches any run of characters, `_` matches one character, and other
characters compare case-insensitively, as SQLite's default `LIKE` does. -/
def likeFuel : Nat → List Char → List Char → Bool
  | 0, _, _ => false
  | _ + 1, [], s => s.isEmpty
  | n + 1, c :: ps, s =>
    if c = '%' then
      likeFuel n ps s ||
        (match s with
         | [] => false
         | _ :: s2 => likeFuel n (c :: ps) s2)
    else
      match s with
      | [] => false
      | c2 :: s2 =>
        if c = '_' then likeFuel n ps s2
        else (c.toLower == c2.toLower) && likeFuel n ps s2

/-- SQL `LIKE` pattern matching; the fuel bound is always sufficient. -/
def likeM (p s : List Char) : Bool := likeFuel (p.length + s.length + 1) p s

/-- Whether `name LIKE '%' || pat || '%'` holds, as used by the search filter
that the patients page interpolates into its query (lines 238-241). -/
def likePattern (name pat : String) : Bool :=
  likeM ('%' :: (pat.data ++ ['%'])) name.data

/-- The patient search of the view-patients tab (lines 236-241): an empty
search box issues `SELECT * FROM patients`, otherwise the rows are filtered
by `name LIKE '%{search}%'`. -/
def searchPatients (db : DB) (search : String) : List Patient :=
  if search = "" then db.patients
  else db.patients.filter (fun p => likePattern p.name search)

/-- Half-to-even rounding of a rational to an integer, the embedding of the
`:.0f` format applied to the average fee by the dispatcher. -/
def roundQ (x : ℚ) : ℤ :=
  let f : ℤ := ⌊x⌋
  let r : ℚ := x - (f : ℚ)
  if r < 1 / 2 then f
  else if 1 / 2 < r then f + 1
  else if f % 2 = 0 then f else f + 1

/-- Mean of all doctors' consultation fees, `AVG(consultation_fee)` (line 148). -/
def avgFee (db : DB) : ℚ :=
  ((db.doctors.map Doctor.consultation_fee).sum) / (db.doctors.length : ℚ)

/-- Condition of the first dispatcher branch (line 126); Python's operator
precedence groups it as `(patient and count) or how-many-patient`. -/
def condPatient (ql : String) : Bool :=
  (strContains ql "patient" && strContains ql "count") || strContains ql "how many patient"

/-- Condition of the second dispatcher branch (line 130). -/
def condTopDoctor (ql : String) : Bool :=
  strContains ql "doctor" && (strContains ql "most" || strContains ql "top")

/-- Condition of the third dispatcher branch (line 138). -/
def condCardiology (ql : String) : Bool := strContains ql "cardiology"

/-- Condition of the fourth dispatcher branch (line 147). -/
def condAvgFee (ql : String) : Bool :=
  strContains ql "fee" && strContains ql "average"

/-- Condition of the fifth dispatcher branch (line 151). -/
def condEmergency (ql : String) : Bool := strContains ql "emergency"

/-- Whether some dispatcher branch that executes a query is selected. -/
def branchMatched (ql : String) : Bool :=
  condPatient ql || condTopDoctor ql || condCardiology ql || condAvgFee ql || condEmergency ql

/-- Appointment count of the `GROUP BY d.name` group of doctor name `n` in
the left join of doctors with appointments (lines 131-135):
`COUNT(a.appointment_id)` skips the null row of an appointment-less doctor. -/
def apptCountOfName (db : DB) (n : String) : Nat :=
  (((db.doctors.filter (fun d => d.name == n))).map
    (fun d => (db.appointments.filter (fun a => a.doctor_id == d.doctor_id)).length)).sum

/-- Groups of the top-doctor query, one per distinct doctor name. -/
def topDoctorGroups (db : DB) : List (String × Nat) :=
  ((db.doctors.map Doctor.name).dedup).map (fun n => (n, apptCountOfName db n))

/-- First group attaining the maximal appointment count, the row delivered by
`ORDER BY count DESC LIMIT 1`. -/
def maxBySnd : List (String × Nat) → Option (String × Nat)
  | [] => none
  | x :: xs =>
    match maxBySnd xs with
    | none => some x
    | some y => if y.2 > x.2 then some y else some x

/-- Rendering of a tabular query result, standing in for pandas
`DataFrame.to_string`: one line per row with space-separated cells. -/
def renderRows (rows : List (List String)) : String :=
  String.intercalate "\n" (rows.map (fun r => String.intercalate " " r))

/-- Answer of the second dispatcher branch (lines 130-136); an empty doctors
table makes `iloc[0]` raise an IndexError which the handler formats. -/
def topDoctorAnswer (db : DB) : String :=
  match maxBySnd (topDoctorGroups db) with
  | none => "Error: single positional indexer is out-of-bounds"
  | some g => "Top Doctor: " ++ g.1 ++ " with " ++ toString g.2 ++ " appointments"

/-- Rows of the cardiology query (lines 139-144): patients joined with their
appointments and the appointment's doctor, doctor specialization LIKE
`'%Cardio%'`. -/
def cardiologyRows (db : DB) : List (List String) :=
  (db.patients.flatMap (fun p =>
    (db.appointments.filter (fun a => a.patient_id == p.patient_id)).flatMap (fun a =>
      (db.doctors.filter (fun d =>
          a.doctor_id == d.doctor_id &&
          likeM ('%' :: ("Cardio".data ++ ['%'])) d.specialization.data)).map (fun _ =>
        [p.name, toString p.age, p.phone]))))

/-- Answer of the third dispatcher branch (lines 138-145). -/
def cardiologyAnswer (db : DB) : String :=
  if (cardiologyRows db).isEmpty then "No cardiology patients found"
  else renderRows (cardiologyRows db)

/-- Answer of the fourth dispatcher branch (lines 147-149); with no doctors
`AVG` is NULL, pandas keeps the all-NULL column as a None object, formatting
None with `:.0f` raises a TypeError, and the handler of line 163 formats that
exception. -/
def averageFeeAnswer (db : DB) : String :=
  if db.doctors.isEmpty then "Error: unsupported format string passed to NoneType.__format__"
  else "Average Consultation Fee: Rs. " ++ toString (roundQ (avgFee db))

/-- Rows of the emergency query (lines 152-157). -/
def emergencyRows (db : DB) : List (List String) :=
  (db.appointments.flatMap (fun a =>
    (db.patients.filter (fun p => a.patient_id == p.patient_id)).flatMap (fun p =>
      (db.doctors.filter (fun d =>
          a.doctor_id == d.doctor_id &&
          likeM ('%' :: ("Emergency".data ++ ['%'])) d.specialization.data)).map (fun _ =>
        [p.name, a.appointment_date, a.reason]))))

/-- Answer of the fifth dispatcher branch (lines 151-158). -/
def emergencyAnswer (db : DB) : String :=
  if (emergencyRows db).isEmpty then "No emergency appointments"
  else renderRows (emergencyRows db)

/-- Static help answer of the final `else` (line 161). -/
def helpAnswer : String :=
  "I can answer: patient count, top doctor, cardiology patients, average fee, emergency appointments"

/-- The canned-question dispatcher `ai_query` (lines 121-166). `fault` models
the exception behaviour of the SQL driver inside the `try` block: `some e`
means every query execution raises an error rendered as `e`, which the
`except` clause formats as `Error: {e}`; `none` means queries succeed. -/
def ai_query (db : DB) (fault : Option String) (q : String) : String :=
  let ql := lowerStr q
  if condPatient ql then
    match fault with
    | some e => "Error: " ++ e
    | none => "Total Patients: " ++ toString db.patients.length
  else if condTopDoctor ql then
    match fault with
    | some e => "Error: " ++ e
    | none => topDoctorAnswer db
  else if condCardiology ql then
    match fault with
    | some e => "Error: " ++ e
    | none => cardiologyAnswer db
  else if condAvgFee ql then
    match fault with
    | some e => "Error: " ++ e
    | none => averageFeeAnswer db
  else if condEmergency ql then
    match fault with
    | some e => "Error: " ++ e
    | none => emergencyAnswer db
  else helpAnswer

/-- Completed appointments of doctor `d`: the appointment rows that the
revenue query's join and `WHERE a.status = 'Completed'` keep for `d`. -/
def completedOf (as : List Appointment) (d : Doctor) : List Appointment :=
  as.filter (fun a => a.doctor_id == d.doctor_id && a.status == "Completed")

/-- Join underlying the revenue query (lines 366-373): `doctors LEFT JOIN
appointments ON d.doctor_id = a.doctor_id WHERE a.status = 'Completed'`; the
filter on the nullable side discards the null rows, so the result is the
inner join restricted to completed appointments. -/
def revJoin : List Doctor → List Appointment → List (Doctor × Appointment)
  | [], _ => []
  | d :: ds, as => (completedOf as d).map (fun a => (d, a)) ++ revJoin ds as

/-- Grouping key of the revenue query: `GROUP BY d.name, d.consultation_fee`. -/
def revKey (x : Doctor × Appointment) : String × ℚ := (x.1.name, x.1.consultation_fee)

/-- Distinct grouping keys occurring in the joined rows. -/
def revGroups (ds : List Doctor) (as : List Appointment) : List (String × ℚ) :=
  ((revJoin ds as).map revKey).dedup

/-- Number of joined rows in the group of key `k`, the `COUNT(a.appointment_id)`
of that group. -/
def revCount (ds : List Doctor) (as : List Appointment) (k : String × ℚ) : Nat :=
  ((revJoin ds as).filter (fun x => revKey x == k)).length

/-- Result rows of the revenue query before ordering: per group, the doctor
name and `COUNT(a.appointment_id) * d.consultation_fee`. -/
def revenueRows (ds : List Doctor) (as : List Appointment) : List (String × ℚ) :=
  (revGroups ds as).map (fun k => (k.1, (revCount ds as k : ℚ) * k.2))

/-- Insertion into a list sorted by descending revenue. -/
def insertDesc (x : String × ℚ) : List (String × ℚ) → List (String × ℚ)
  | [] => [x]
  | y :: ys => if y.2 ≤ x.2 then x :: y :: ys else y :: insertDesc x ys

/-- Insertion sort by descending revenue, the `ORDER BY revenue DESC`. -/
def sortDesc : List (String × ℚ) → List (String × ℚ)
  | [] => []
  | x :: xs => insertDesc x (sortDesc xs)

/-- The revenue-by-doctor aggregation of the Analytics page (lines 366-373). -/
def revenueByDoctor (db : DB) : List (String × ℚ) :=
  sortDesc (revenueRows db.doctors db.appointments)

/-- One step of `likeFuel` on a `%` wildcard and an empty string. -/
theorem likeFuel_pct_nil (n : Nat) (ps : List Char) :
    likeFuel (n + 1) ('%' :: ps) [] = (likeFuel n ps [] || false) := by
  simp [likeFuel]

/-- One step of `likeFuel` on a `%` wildcard and a non-empty string. -/
theorem likeFuel_pct_cons (n : Nat) (ps : List Char) (c : Char) (s2 : List Char) :
    likeFuel (n + 1) ('%' :: ps) (c :: s2)
      = (likeFuel n ps (c :: s2) || likeFuel n ('%' :: ps) s2) := by
  simp [likeFuel]

/-- One step of `likeFuel` on a literal pattern character and an empty string. -/
theorem likeFuel_lit_nil (n : Nat) (c : Char) (ps : List Char) (hc : ¬ c = '%') :
    likeFuel (n + 1) (c :: ps) [] = false := by
  simp only [likeFuel, if_neg hc]

/-- One step of `likeFuel` on a literal pattern character and a non-empty string. -/
theorem likeFuel_lit_cons (n : Nat) (c : Char) (ps : List Char) (c2 : Char) (s2 : List Char)
    (hc : ¬ c = '%') :
    likeFuel (n + 1) (c :: ps) (c2 :: s2)
      = (if c = '_' then likeFuel n ps s2 else (c.toLower == c2.toLower) && likeFuel n ps s2) := by
  simp only [likeFuel, if_neg hc]

/-- Fuel does not matter for `likeFuel` as long as it exceeds the combined
length of pattern and string. -/
theorem likeFuel_congr : ∀ n m (p s : List Char), p.length + s.length < n →
    p.length + s.length < m → likeFuel n p s = likeFuel m p s := by
  intro n
  induction n with
  | zero => intro m p s h; omega
  | succ n ih =>
    intro m p s hn hm
    cases m with
    | zero => omega
    | succ m =>
      cases p with
      | nil => rfl
      | cons c ps =>
        by_cases hc : c = '%'
        · subst hc
          cases s with
          | nil =>
            rw [likeFuel_pct_nil, likeFuel_pct_nil]
            have h1 : likeFuel n ps [] = likeFuel m ps [] := by
              apply ih <;> simp at hn hm ⊢ <;> omega
            rw [h1]
          | cons c2 s2 =>
            rw [likeFuel_pct_cons, likeFuel_pct_cons]
            have h1 : likeFuel n ps (c2 :: s2) = likeFuel m ps (c2 :: s2) := by
              apply ih <;> simp at hn hm ⊢ <;> omega
            have h2 : likeFuel n ('%' :: ps) s2 = likeFuel m ('%' :: ps) s2 := by
              apply ih <;> simp at hn hm ⊢ <;> omega
            rw [h1, h2]
        · cases s with
          | nil => rw [likeFuel_lit_nil _ _ _ hc, likeFuel_lit_nil _ _ _ hc]
          | cons c2 s2 =>
            rw [likeFuel_lit_cons _ _ _ _ _ hc, likeFuel_lit_cons _ _ _ _ _ hc]
            have h2 : likeFuel n ps s2 = likeFuel m ps s2 := by
              apply ih <;> simp at hn hm ⊢ <;> omega
            rw [h2]

/-- Unfolding of `likeM` on the empty pattern. -/
theorem likeM_nil_pat (s : List Char) : likeM [] s = s.isEmpty := rfl

/-- Unfolding of `likeM` on a `%` wildcard and an empty string. -/
theorem likeM_pct_nil (ps : List Char) : likeM ('%' :: ps) [] = likeM ps [] := by
  show likeFuel (ps.length + 1 + 0 + 1) ('%' :: ps) [] = _
  rw [likeFuel_pct_nil, Bool.or_false]
  apply likeFuel_congr <;> (try simp only [List.length_nil, List.length_cons]) <;> omega

/-- Unfolding of `likeM` on a `%` wildcard and a non-empty string. -/
theorem likeM_pct_cons (ps : List Char) (c : Char) (s2 : List Char) :
    likeM ('%' :: ps) (c :: s2) = (likeM ps (c :: s2) || likeM ('%' :: ps) s2) := by
  show likeFuel (ps.length + 1 + (s2.length + 1) + 1) ('%' :: ps) (c :: s2) = _
  rw [likeFuel_pct_cons]
  have h1 : likeFuel (ps.length + 1 + (s2.length + 1)) ps (c :: s2) = likeM ps (c :: s2) := by
    apply likeFuel_congr <;> (try simp only [List.length_nil, List.length_cons]) <;> omega
  have h2 : likeFuel (ps.length + 1 + (s2.length + 1)) ('%' :: ps) s2 = likeM ('%' :: ps) s2 := by
    apply likeFuel_congr <;> (try simp only [List.length_nil, List.length_cons]) <;> omega
  rw [h1, h2]

/-- Unfolding of `likeM` on a literal pattern character and an empty string. -/
theorem likeM_lit_nil (c : Char) (ps : List Char) (hc : ¬ c = '%') :
    likeM (c :: ps) [] = false := by
  show likeFuel (ps.length + 1 + 0 + 1) (c :: ps) [] = _
  rw [likeFuel_lit_nil _ _ _ hc]

/-- Unfolding of `likeM` on a literal pattern character and a non-empty string. -/
theorem likeM_lit_cons (c : Char) (ps : List Char) (c2 : Char) (s2 : List Char)
    (hc : ¬ c = '%') :
    likeM (c :: ps) (c2 :: s2)
      = (if c = '_' then likeM ps s2 else (c.toLower == c2.toLower) && likeM ps s2) := by
  show likeFuel (ps.length + 1 + (s2.length + 1) + 1) (c :: ps) (c2 :: s2) = _
  rw [likeFuel_lit_cons _ _ _ _ _ hc]
  have h2 : likeFuel (ps.length + 1 + (s2.length + 1)) ps s2 = likeM ps s2 := by
    apply likeFuel_congr <;> omega
  rw [h2]

/-- The lone `%` pattern matches every string. -/
theorem like_pct_all (s : List Char) : likeM ['%'] s = true := by
  induction s with
  | nil => rw [likeM_pct_nil]; rfl
  | cons c t ih => rw [likeM_pct_cons, ih, Bool.or_true]

/-- A leading `%` absorbs any prefix of the string. -/
theorem like_skip (u p s : List Char) (h : likeM p s = true) :
    likeM ('%' :: p) (u ++ s) = true := by
  induction u with
  | nil =>
    rw [List.nil_append]
    cases s with
    | nil => rw [likeM_pct_nil]; exact h
    | cons c s2 => rw [likeM_pct_cons, h, Bool.true_or]
  | cons c t ih =>
    rw [List.cons_append, likeM_pct_cons, ih, Bool.or_true]

/-- A pattern followed by `%` matches itself extended by any suffix. -/
theorem like_self (p v : List Char) : likeM (p ++ ['%']) (p ++ v) = true := by
  induction p with
  | nil => simpa using like_pct_all v
  | cons c t ih =>
    by_cases hc : c = '%'
    · subst hc
      rw [List.cons_append, List.cons_append]
      have h2 : likeM ('%' :: (t ++ ['%'])) (t ++ v) = true := by
        have h3 := like_skip [] (t ++ ['%']) (t ++ v) ih
        rwa [List.nil_append] at h3
      rw [likeM_pct_cons, h2, Bool.or_true]

    · rw [List.cons_append, List.cons_append, likeM_lit_cons _ _ _ _ hc]
      by_cases hu : c = '_'
      · rw [if_pos hu, ih]
      · rw [if_neg hu, ih, Bool.and_true, beq_self_eq_true]

/-- Any string containing the pattern literally matches `'%' pattern '%'`. -/
theorem like_has_sub (sub name : List Char) (h : sub <:+: name) :
    likeM ('%' :: (sub ++ ['%'])) name = true := by
  obtain ⟨u, v, huv⟩ := h
  rw [← huv, List.append_assoc]
  exact like_skip u _ _ (like_self sub v)

/-- Membership after inserting into a descending list. -/
theorem mem_insertDesc {x y : String × ℚ} {l : List (String × ℚ)} :
    x ∈ insertDesc y l ↔ x = y ∨ x ∈ l := by
  induction l with
  | nil => simp [insertDesc]
  | cons z t ih =>
    simp only [insertDesc]
    by_cases h : z.2 ≤ y.2
    · simp [h]
    · simp only [if_neg h, List.mem_cons, ih]
      tauto

/-- Sorting by descending revenue does not change membership. -/
theorem mem_sortDesc {x : String × ℚ} {l : List (String × ℚ)} :
    x ∈ sortDesc l ↔ x ∈ l := by
  induction l with
  | nil => simp [sortDesc]
  | cons z t ih => simp [sortDesc, mem_insertDesc, ih]

/-- Every row of the revenue join pairs a doctor of the table with one of that
doctor's appointments whose status is `Completed`. -/
theorem mem_revJoin {ds : List Doctor} {as : List Appointment} {x : Doctor × Appointment}
    (h : x ∈ revJoin ds as) :
    x.1 ∈ ds ∧ x.2 ∈ as ∧ x.2.doctor_id = x.1.doctor_id ∧ x.2.status = "Completed" := by
  induction ds with
  | nil => simp [revJoin] at h
  | cons d t ih =>
    rw [revJoin, List.mem_append] at h
    rcases h with h | h
    · obtain ⟨a, ha, hx⟩ := List.mem_map.mp h
      rw [completedOf, List.mem_filter] at ha
      obtain ⟨ham, hpred⟩ := ha
      simp only [Bool.and_eq_true, beq_iff_eq] at hpred
      rw [← hx]
      exact ⟨List.mem_cons_self d t, ham, hpred.1, hpred.2⟩
    · obtain ⟨h1, h2⟩ := ih h
      exact ⟨List.mem_cons_of_mem d h1, h2⟩

/-- With pairwise distinct doctor names, the rows of doctor `d`'s group in the
revenue join are exactly `d`'s completed appointments. -/
theorem revJoin_filter_key (as : List Appointment) (d : Doctor) :
    ∀ ds : List Doctor, (ds.map Doctor.name).Nodup → d ∈ ds →
    ((revJoin ds as).filter (fun x => revKey x == (d.name, d.consultation_fee))).length
      = (completedOf as d).length := by
  intro ds
  induction ds with
  | nil => simp
  | cons d2 t ih =>
    intro hnd hmem
    obtain ⟨hnotin, hnd2⟩ := List.nodup_cons.mp hnd
    rw [revJoin, List.filter_append, List.length_append, List.filter_map]
    have htail0 : ∀ (hne : d2.name ≠ d.name) (x : Doctor × Appointment),
        x ∈ (completedOf as d2).map (fun a => (d2, a)) →
        ¬ (revKey x == (d.name, d.consultation_fee)) = true := by
      intro hne x hx
      obtain ⟨a, _, hxa⟩ := List.mem_map.mp hx
      rw [← hxa]
      simp [revKey, hne]
    rcases List.mem_cons.mp hmem with heq | hmem2
    · subst heq
      have hhead : ((completedOf as d).filter
          ((fun x => revKey x == (d.name, d.consultation_fee)) ∘ (fun a => (d, a)))) = completedOf as d := by
        apply List.filter_eq_self.mpr
        intro a _
        simp [revKey]
      rw [hhead, List.length_map]
      have htail : ((revJoin t as).filter (fun x => revKey x == (d.name, d.consultation_fee))) = [] := by
        apply List.filter_eq_nil_iff.mpr
        intro x hx
        have h1 := (mem_revJoin hx).1
        have h2 : x.1.name ∈ t.map Doctor.name := List.mem_map_of_mem Doctor.name h1
        have h3 : x.1.name ≠ d.name := fun hc => hnotin (hc ▸ h2)
        simp [revKey, h3]
      rw [htail]
      rfl
    · have hne : d2.name ≠ d.name := by
        intro hc
        exact hnotin (hc ▸ List.mem_map_of_mem Doctor.name hmem2)
      have hhead : ((completedOf as d2).filter
          ((fun x => revKey x == (d.name, d.consultation_fee)) ∘ (fun a => (d2, a)))) = [] := by
        apply List.filter_eq_nil_iff.mpr
        intro a _
        simp [revKey, hne]
      rw [hhead]
      simp only [List.map_nil, List.length_nil, Nat.zero_add]
      exact ih hnd2 hmem2

/-- With pairwise distinct doctor names, a grouping key whose name component
is doctor `d`'s name carries `d`'s consultation fee. -/
theorem revGroups_key_eq {ds : List Doctor} {as : List Appointment}
    (hnd : (ds.map Doctor.name).Nodup) {k : String × ℚ} (hk : k ∈ revGroups ds as)
    {d : Doctor} (hd : d ∈ ds) (hn : k.1 = d.name) :
    k = (d.name, d.consultation_fee) := by
  rw [revGroups, List.mem_dedup] at hk
  obtain ⟨x, hx, hxk⟩ := List.mem_map.mp hk
  have h1 := (mem_revJoin hx).1
  rw [← hxk] at hn
  have h2 : x.1 = d := by
    apply List.inj_on_of_nodup_map hnd h1 hd
    exact hn
  rw [← hxk]
  show (x.1.name, x.1.consultation_fee) = (d.name, d.consultation_fee)
  rw [h2]

/-- Filtering the status column before the join leaves the join unchanged:
the join already keeps only rows with status `Completed`. -/
theorem revJoin_filter_completed (ds : List Doctor) (as : List Appointment) :
    revJoin ds (as.filter (fun a => a.status == "Completed")) = revJoin ds as := by
  have hco : ∀ d : Doctor,
      completedOf (as.filter (fun a => a.status == "Completed")) d = completedOf as d := by
    intro d
    rw [completedOf, completedOf, List.filter_filter]
    apply List.filter_congr
    intro a _
    cases h1 : a.doctor_id == d.doctor_id <;> cases h2 : a.status == "Completed" <;> simp [h1, h2]
  induction ds with
  | nil => rfl
  | cons d t ih => rw [revJoin, revJoin, hco, ih]

/-- C4: every submission of the book-appointment form inserts exactly one row
into the appointments table, and that row's status column is the literal
string `Scheduled`, independent of any form default and of the chosen
patient, doctor, date, time and reason. -/
theorem book_appointment_status_scheduled (db : DB) (patient doctor : Nat)
    (date time reason : String) :
    (book_appointment db patient doctor date time reason).appointments
      = db.appointments ++ [bookedRow db patient doctor date time reason] ∧
    (bookedRow db patient doctor date time reason).status = "Scheduled" :=
  ⟨rfl, rfl⟩

/-- C5: the bootstrap is idempotent: on any database state whose departments
table is non-empty, `init_db` leaves every table's contents unchanged. -/
theorem init_db_idempotent (db : DB) (h : db.departments ≠ []) : init_db db = db := by
  have he : db.departments.isEmpty = false := by
    cases hd : db.departments with
    | nil => exact absurd hd h
    | cons a t => rfl
  simp [init_db, he]

/-- Witness for C5: a second run of `init_db` on the already-seeded store is
the identity. -/
theorem init_db_idempotent_witness : init_db (init_db emptyDB) = init_db emptyDB :=
  init_db_idempotent (init_db emptyDB) (by decide)

/-- C6: bootstrap on an empty store produces exactly the fixed seed sizes:
5/5/5/5 department/doctor/patient/appointment rows for the interactive app's
`init_db`, and 5/7/5/5 for the standalone `create_hospital_database`. -/
theorem bootstrap_seed_counts :
    ((init_db emptyDB).departments.length = 5 ∧ (init_db emptyDB).doctors.length = 5 ∧
     (init_db emptyDB).patients.length = 5 ∧ (init_db emptyDB).appointments.length = 5) ∧
    (create_hospital_database.departments.length = 5 ∧
     create_hospital_database.doctors.length = 7 ∧
     create_hospital_database.patients.length = 5 ∧
     create_hospital_database.appointments.length = 5) := by
  decide

/-- C8: at startup a corrupt or unreadable store is discarded and recreated
fresh (the result is exactly `init_db` of the empty store, independent of any
previous content), while a readable store is kept: `init_db` runs in place
and every existing row survives as a prefix of its table. -/
theorem init_db_corruption_recovery :
    initStore Store.corrupt = Store.good (init_db emptyDB) ∧
    (∀ db : DB, initStore (Store.good db) = Store.good (init_db db)) ∧
    (∀ db : DB, db.departments <+: (init_db db).departments ∧
      db.doctors <+: (init_db db).doctors ∧
      db.patients <+: (init_db db).patients ∧
      db.appointments <+: (init_db db).appointments) := by
  refine ⟨rfl, fun db => rfl, fun db => ?_⟩
  unfold init_db
  by_cases hd : db.departments.isEmpty
  · simp only [hd, if_true]
    exact ⟨List.prefix_append _ _, List.prefix_append _ _, List.prefix_append _ _,
      List.prefix_append _ _⟩
  · simp only [hd, if_false]
    exact ⟨List.prefix_refl _, List.prefix_refl _, List.prefix_refl _, List.prefix_refl _⟩

/-- C9: any question whose lower-casing contains the substring
`how many patient` is answered by the patient-count branch, whatever other
branch keywords the question also contains: the first matching branch of the
dispatcher shadows all later ones. -/
theorem ai_query_patient_branch_shadows (db : DB) (q : String)
    (h : strContains (lowerStr q) "how many patient" = true) :
    ai_query db none q = "Total Patients: " ++ toString db.patients.length := by
  have hc : condPatient (lowerStr q) = true := by
    rw [condPatient, h, Bool.or_true]
  simp [ai_query, hc]

/-- Witness for C9: a question containing `how many patient` together with
the keywords of every later branch (doctor/most/top, cardiology, fee/average,
emergency) is still answered with the patient count. -/
theorem ai_query_patient_branch_shadows_witness :
    ai_query (init_db emptyDB) none
        "How many patients? count top doctor most cardiology average fee emergency"
      = "Total Patients: " ++ toString (init_db emptyDB).patients.length :=
  ai_query_patient_branch_shadows (init_db emptyDB)
    "How many patients? count top doctor most cardiology average fee emergency" (by decide)

/-- C7: whenever the query selected by the dispatcher raises an error, the
dispatcher returns the formatted string `Error: ...` instead of propagating
the exception: with every query failing, any input that selects one of the
five query branches yields the formatted error string. -/
theorem ai_query_error_formatted (db : DB) (q e : String)
    (h : branchMatched (lowerStr q) = true) :
    ai_query db (some e) q = "Error: " ++ e := by
  unfold branchMatched at h
  by_cases h1 : condPatient (lowerStr q) = true
  · simp [ai_query, h1]
  · rw [Bool.not_eq_true] at h1
    by_cases h2 : condTopDoctor (lowerStr q) = true
    · simp [ai_query, h1, h2]
    · rw [Bool.not_eq_true] at h2
      by_cases h3 : condCardiology (lowerStr q) = true
      · simp [ai_query, h1, h2, h3]
      · rw [Bool.not_eq_true] at h3
        by_cases h4 : condAvgFee (lowerStr q) = true
        · simp [ai_query, h1, h2, h3, h4]
        · rw [Bool.not_eq_true] at h4
          by_cases h5 : condEmergency (lowerStr q) = true
          · simp [ai_query, h1, h2, h3, h4, h5]
          · rw [Bool.not_eq_true] at h5
            rw [h1, h2, h3, h4, h5] at h
            simp at h

/-- Witness for C7: with failing query execution, the emergency question is
answered by the formatted error string. -/
theorem ai_query_error_formatted_witness :
    ai_query (init_db emptyDB) (some "database is locked") "emergency please"
      = "Error: " ++ "database is locked" :=
  ai_query_error_formatted (init_db emptyDB) "emergency please" "database is locked" (by decide)

/-- C3 (amended): on any database with at least one doctor, the dispatcher
answers the literal string `average fee?` with the mean of all doctors'
consultation fees rounded to an integer; the rounded mean occurs verbatim in
the returned string. -/
theorem ai_query_average_fee (db : DB) (h : db.doctors ≠ []) :
    ai_query db none "average fee?"
      = "Average Consultation Fee: Rs. " ++ toString (roundQ (avgFee db)) ∧
    (toString (roundQ (avgFee db))).data <:+: (ai_query db none "average fee?").data := by
  have h1 : condPatient (lowerStr "average fee?") = false := by decide
  have h2 : condTopDoctor (lowerStr "average fee?") = false := by decide
  have h3 : condCardiology (lowerStr "average fee?") = false := by decide
  have h4 : condAvgFee (lowerStr "average fee?") = true := by decide
  have he : db.doctors.isEmpty = false := by
    cases hd : db.doctors with
    | nil => exact absurd hd h
    | cons a t => rfl
  have heq : ai_query db none "average fee?"
      = "Average Consultation Fee: Rs. " ++ toString (roundQ (avgFee db)) := by
    simp [ai_query, h1, h2, h3, h4, averageFeeAnswer, he]
  refine ⟨heq, ?_⟩
  rw [heq, String.data_append]
  exact ⟨"Average Consultation Fee: Rs. ".data, [], by rw [List.append_nil]⟩

/-- Counterexample for C3: on the database with no doctors, `AVG` returns
NULL, `result.iloc[0]` delivers None, formatting it with `:.0f` raises a
TypeError, and the dispatcher answers the formatted error string
`Error: unsupported format string passed to NoneType.__format__`, which
contains no rounded mean at all — so the claim fails when quantified over
every database state. -/
theorem ai_query_average_fee_empty :
    ai_query emptyDB none "average fee?"
      = "Error: unsupported format string passed to NoneType.__format__" ∧
    ¬ (toString (roundQ (avgFee emptyDB))).data <:+: (ai_query emptyDB none "average fee?").data := by
  have h1 : condPatient (lowerStr "average fee?") = false := by decide
  have h2 : condTopDoctor (lowerStr "average fee?") = false := by decide
  have h3 : condCardiology (lowerStr "average fee?") = false := by decide
  have h4 : condAvgFee (lowerStr "average fee?") = true := by decide
  have heq : ai_query emptyDB none "average fee?"
      = "Error: unsupported format string passed to NoneType.__format__" := by
    simp [ai_query, h1, h2, h3, h4, averageFeeAnswer, emptyDB]
  refine ⟨heq, ?_⟩
  have hv : roundQ (avgFee emptyDB) = 0 := by
    have ha : avgFee emptyDB = 0 := by
      simp [avgFee, emptyDB]
    rw [ha]
    norm_num [roundQ]
  rw [heq, hv]
  decide

/-- Witness for C3: the seeded store has doctors, and the dispatcher answer
on it is the formatted rounded mean. -/
theorem ai_query_average_fee_witness :
    (init_db emptyDB).doctors ≠ [] ∧
    ai_query (init_db emptyDB) none "average fee?"
      = "Average Consultation Fee: Rs. " ++ toString (roundQ (avgFee (init_db emptyDB))) :=
  ⟨by decide, (ai_query_average_fee (init_db emptyDB) (by decide)).1⟩

/-- Doctor used by the revenue counterexample: one of two distinct doctors
sharing the same name and the same consultation fee. -/
def cexDoctorA : Doctor := ⟨1, "Dr. X", "GP", 1, "", "", 5, 100⟩

/-- Second doctor of the revenue counterexample, same name and fee. -/
def cexDoctorB : Doctor := ⟨2, "Dr. X", "GP", 1, "", "", 5, 100⟩

/-- Database of the revenue counterexample: each of the two doctors named
`Dr. X` has exactly one completed appointment. -/
def cexDB : DB := ⟨[⟨1, "General", "A"⟩], [cexDoctorA, cexDoctorB],
  [⟨1, "P", 30, "Male", "", "", "", "O+", "2024-01-01"⟩],
  [⟨1, 1, 1, "2024-01-01", "10:00 AM", "Completed", "c"⟩,
   ⟨2, 1, 2, "2024-01-02", "11:00 AM", "Completed", "c"⟩]⟩

/-- Counterexample for C1: `GROUP BY d.name, d.consultation_fee` merges the
two distinct doctors named `Dr. X` with fee 100, so the single listed row
carries revenue 200 while each doctor's completed-count times fee is 100. -/
theorem revenue_by_doctor_merged_names :
    cexDoctorA ∈ cexDB.doctors ∧
    ("Dr. X", (200 : ℚ)) ∈ revenueByDoctor cexDB ∧
    ("Dr. X" : String) = cexDoctorA.name ∧
    ((completedOf cexDB.appointments cexDoctorA).length : ℚ) * cexDoctorA.consultation_fee = 100 ∧
    (200 : ℚ) ≠ 100 := by
  refine ⟨by decide, ?_, rfl, ?_, by norm_num⟩
  · rw [revenueByDoctor, mem_sortDesc]
    norm_num [revenueRows, revGroups, revCount, revJoin, completedOf, revKey, cexDB,
      cexDoctorA, cexDoctorB]
  · norm_num [completedOf, cexDB, cexDoctorA]

/-- Doctor of the revenue/absence witness database: has one completed
appointment. -/
def wDoctorA : Doctor := ⟨1, "Dr. A", "GP", 1, "", "", 5, 50⟩

/-- Witness database for the revenue aggregation: the doctor names are
pairwise distinct, `Dr. A` has one completed appointment, `Dr. B` has none. -/
def wDB : DB := ⟨[], [wDoctorA, ⟨2, "Dr. B", "GP", 1, "", "", 5, 60⟩],
  [], [⟨1, 1, 1, "d", "t", "Completed", "r"⟩]⟩

/-- C1 (amended): on any database whose doctors carry pairwise distinct
names, every listed revenue row of a doctor equals that doctor's number of
appointments with status `Completed` times that doctor's consultation fee;
moreover, on every database (no distinctness needed), discarding all
appointments whose status is not `Completed` leaves the aggregation
unchanged, so a `Scheduled` or `Cancelled` appointment never contributes. -/
theorem revenue_by_doctor_completed_only (db : DB) :
    ((db.doctors.map Doctor.name).Nodup →
      ∀ d, d ∈ db.doctors → ∀ r, r ∈ revenueByDoctor db → r.1 = d.name →
        r.2 = ((completedOf db.appointments d).length : ℚ) * d.consultation_fee) ∧
    revenueByDoctor { db with
        appointments := db.appointments.filter (fun a => a.status == "Completed") }
      = revenueByDoctor db := by
  constructor
  · intro hnd d hd r hr hname
    rw [revenueByDoctor, mem_sortDesc, revenueRows] at hr
    obtain ⟨k, hk, hkr⟩ := List.mem_map.mp hr
    have hn1 : k.1 = d.name := by
      rw [← hkr] at hname
      exact hname
    have hkey : k = (d.name, d.consultation_fee) := revGroups_key_eq hnd hk hd hn1
    rw [← hkr]
    show (revCount db.doctors db.appointments k : ℚ) * k.2
      = ((completedOf db.appointments d).length : ℚ) * d.consultation_fee
    rw [hkey]
    show (revCount db.doctors db.appointments (d.name, d.consultation_fee) : ℚ)
        * d.consultation_fee
      = ((completedOf db.appointments d).length : ℚ) * d.consultation_fee
    rw [revCount, revJoin_filter_key db.appointments d db.doctors hnd hd]
  · rw [revenueByDoctor, revenueByDoctor]
    simp only [revenueRows, revGroups, revCount, revJoin_filter_completed]

/-- Witness for C1: on `wDB` (pairwise distinct doctor names), the listed
revenue of `Dr. A` equals that doctor's completed-appointment count times the
fee, and restricting the appointments to the completed ones leaves the
aggregation unchanged. -/
theorem revenue_by_doctor_completed_only_witness :
    ("Dr. A", (50 : ℚ)).2
        = ((completedOf wDB.appointments wDoctorA).length : ℚ) * wDoctorA.consultation_fee ∧
    revenueByDoctor { wDB with
        appointments := wDB.appointments.filter (fun a => a.status == "Completed") }
      = revenueByDoctor wDB :=
  ⟨(revenue_by_doctor_completed_only wDB).1 (by decide) wDoctorA (by decide) ("Dr. A", 50)
      (by rw [revenueByDoctor, mem_sortDesc]
          simp [revenueRows, revGroups, revCount, revJoin, completedOf, revKey, wDB, wDoctorA])
      rfl,
   (revenue_by_doctor_completed_only wDB).2⟩

/-- C10: the revenue result lists only doctor names that have at least one
appointment with status `Completed`; a name none of whose doctors has a
completed appointment is absent from the result entirely (in particular it is
never listed with revenue 0). -/
theorem revenue_by_doctor_membership (db : DB) :
    (∀ r, r ∈ revenueByDoctor db → ∃ d, d ∈ db.doctors ∧ d.name = r.1 ∧
      ∃ a, a ∈ db.appointments ∧ a.doctor_id = d.doctor_id ∧ a.status = "Completed") ∧
    (∀ n : String,
      (∀ d, d ∈ db.doctors → d.name = n →
        ∀ a, a ∈ db.appointments → a.doctor_id = d.doctor_id → a.status ≠ "Completed") →
      ∀ r, r ∈ revenueByDoctor db → r.1 ≠ n) := by
  have hpart1 : ∀ r, r ∈ revenueByDoctor db → ∃ d, d ∈ db.doctors ∧ d.name = r.1 ∧
      ∃ a, a ∈ db.appointments ∧ a.doctor_id = d.doctor_id ∧ a.status = "Completed" := by
    intro r hr
    rw [revenueByDoctor, mem_sortDesc, revenueRows] at hr
    obtain ⟨k, hk, hkr⟩ := List.mem_map.mp hr
    rw [revGroups, List.mem_dedup] at hk
    obtain ⟨x, hx, hxk⟩ := List.mem_map.mp hk
    obtain ⟨hd, ha, hdid, hst⟩ := mem_revJoin hx
    refine ⟨x.1, hd, ?_, x.2, ha, hdid, hst⟩
    rw [← hkr, ← hxk]
    rfl
  refine ⟨hpart1, ?_⟩
  intro n hn r hr hrn
  obtain ⟨d, hd, hdn, a, ha, hdid, hst⟩ := hpart1 r hr
  exact hn d hd (hdn.trans hrn) a ha hdid hst

/-- Witness for C10: `Dr. B` has no completed appointment, so the revenue row
of `wDB` (namely `Dr. A`'s) does not carry `Dr. B`'s name. -/
theorem revenue_by_doctor_membership_witness :
    ("Dr. A", (50 : ℚ)).1 ≠ "Dr. B" :=
  (revenue_by_doctor_membership wDB).2 "Dr. B" (by decide) ("Dr. A", 50)
    (by rw [revenueByDoctor, mem_sortDesc]
        simp [revenueRows, revGroups, revCount, revJoin, completedOf, revKey, wDB, wDoctorA])

/-- Database of the C2 counterexample: it already holds a patient named
`Ali Hassan` before the insertion. -/
def cex2DB : DB := ⟨[], [], [⟨1, "Ali Hassan", 35, "Male", "", "", "", "O+", "2024-01-15"⟩], []⟩

/-- Counterexample for C2: after inserting a patient named `Hassan`, a search
by the substring `Hassan` of that name returns two rows (the pre-existing
`Ali Hassan` also matches `LIKE '%Hassan%'`), not exactly the inserted one. -/
theorem patient_search_not_unique :
    "Hassan".data <:+: "Hassan".data ∧
    (searchPatients (add_patient cex2DB "Hassan" 30 "Male" "" "" "" "O+" "2024-01-01")
        "Hassan").length = 2 := by
  constructor
  · exact List.infix_refl _
  · decide

/-- C2 (amended): after inserting a patient via the add-patient form, a
search by any substring of the new name (containing no single-quote
character, which would break the interpolated query) returns a row set that
contains the inserted row; it is exactly that one row precisely when no
previously stored patient's name matches the `LIKE` pattern of the search. -/
theorem patient_search_includes_inserted (db : DB) (name : String) (age : Nat)
    (gender phone email address blood regDate sub : String)
    (_hq : Char.ofNat 39 ∉ sub.data) (hinf : sub.data <:+: name.data) :
    newPatientRow db name age gender phone email address blood regDate
      ∈ searchPatients (add_patient db name age gender phone email address blood regDate) sub ∧
    ((∀ p, p ∈ db.patients → likePattern p.name sub = false) ↔
      searchPatients (add_patient db name age gender phone email address blood regDate) sub
        = [newPatientRow db name age gender phone email address blood regDate]) := by
  have hpat : (add_patient db name age gender phone email address blood regDate).patients
      = db.patients ++ [newPatientRow db name age gender phone email address blood regDate] := rfl
  have hm : likePattern name sub = true := like_has_sub sub.data name.data hinf
  by_cases hs : sub = ""
  · subst hs
    refine ⟨?_, ?_, ?_⟩
    · rw [searchPatients, if_pos rfl, hpat]
      exact List.mem_append_right _ (List.mem_singleton_self _)
    · intro hnone
      have hemp : db.patients = [] := by
        cases hp : db.patients with
        | nil => rfl
        | cons p t =>
          have h0 := hnone p (by rw [hp]; exact List.mem_cons_self p t)
          have htrue : likePattern p.name "" = true :=
            like_has_sub [] p.name.data List.nil_infix
          rw [htrue] at h0
          exact absurd h0 (by simp)
      rw [searchPatients, if_pos rfl, hpat, hemp, List.nil_append]
    · intro heq p hp
      rw [searchPatients, if_pos rfl, hpat] at heq
      have hlen := congrArg List.length heq
      simp only [List.length_append, List.length_cons, List.length_nil] at hlen
      have hemp : db.patients = [] := List.eq_nil_of_length_eq_zero (by omega)
      rw [hemp] at hp
      exact absurd hp (List.not_mem_nil p)
  · refine ⟨?_, ?_, ?_⟩
    · rw [searchPatients, if_neg hs, hpat, List.filter_append]
      apply List.mem_append_right
      simp [newPatientRow, hm]
    · intro hnone
      rw [searchPatients, if_neg hs, hpat, List.filter_append]
      have h1 : db.patients.filter (fun p => likePattern p.name sub) = [] :=
        List.filter_eq_nil_iff.mpr (fun p hp => by simp [hnone p hp])
      rw [h1, List.nil_append]
      simp [newPatientRow, hm]
    · intro heq p hp
      rw [searchPatients, if_neg hs, hpat, List.filter_append] at heq
      have hr : List.filter (fun p => likePattern p.name sub)
          [newPatientRow db name age gender phone email address blood regDate]
          = [newPatientRow db name age gender phone email address blood regDate] := by
        simp [newPatientRow, hm]
      rw [hr] at heq
      have hlen := congrArg List.length heq
      simp only [List.length_append, List.length_cons, List.length_nil] at hlen
      have h0 : db.patients.filter (fun p => likePattern p.name sub) = [] :=
        List.eq_nil_of_length_eq_zero (by omega)
      have h2 := List.filter_eq_nil_iff.mp h0 p hp
      simpa using h2

/-- Witness for C2: inserting `Ali Khan` into the empty store and searching
by the substring `Ali` returns exactly the inserted row. -/
theorem patient_search_includes_inserted_witness :
    searchPatients (add_patient emptyDB "Ali Khan" 30 "Male" "p" "e" "a" "O+" "2024-01-01") "Ali"
      = [newPatientRow emptyDB "Ali Khan" 30 "Male" "p" "e" "a" "O+" "2024-01-01"] :=
  (patient_search_includes_inserted emptyDB "Ali Khan" 30 "Male" "p" "e" "a" "O+" "2024-01-01"
    "Ali" (by decide) (by decide)).2.mp (by decide)
